import Mathlib

/-!
Verification of the pipeline orchestration layer of `src/App.jsx`:
a shallow embedding of the fetch handlers (`handleSaveKeys`,
`handleTransformSubmission`, `handleTransformChecklist`, `handleRunReview`)
together with the request-building helpers (`buildFormData`, `postFormData`),
and theorems checking the specified properties against this embedding.
-/

namespace App

/-- A file value as held in component state: a name plus opaque content. -/
structure FileData where
  name : String
  content : String
deriving DecidableEq, Repr

/-- A value appended to a `FormData`: a text field or a file field. -/
inductive FormValue where
  | str (s : String)
  | file (f : FileData)
deriving DecidableEq, Repr

/-- The parsed JSON body of a service response, restricted to the fields the
client reads (`result`, `error`, `status`). `none` models a missing, `null`
or `undefined` field. -/
structure ResponseData where
  result : Option String := none
  error : Option String := none
  status : Option String := none
deriving DecidableEq, Repr

/-- The outcome of one `fetch`: either a response carrying the HTTP
success flag `res.ok` and the outcome of parsing the body as JSON
(`Except.error m` models `res.json()` rejecting with message `m`),
or a transport-level failure (the `fetch` promise itself rejects). -/
inductive FetchResult where
  | response (ok : Bool) (body : Except String ResponseData)
  | transportError (msg : String)
deriving Repr

/-- JavaScript `a || b` where `a` is an optional string: a missing, `null`
or empty (falsy) left operand yields the right operand. -/
def jsOr : Option String → String → String
  | some s, d => if s = "" then d else s
  | none, d => d

/-- JavaScript `a || b` on two strings: an empty (falsy) `a` yields `b`. -/
def strOr (a b : String) : String := if a = "" then b else a

/-- `buildFormData` (App.jsx lines 76–84): appends each field whose value is
neither `undefined` nor `null`; all other fields are omitted entirely. -/
def buildFormData (fields : List (String × Option FormValue)) :
    List (String × FormValue) :=
  fields.filterMap fun kv =>
    match kv with
    | (k, some v) => some (k, v)
    | (_, none) => none

/-- `postFormData` (App.jsx lines 86–96): issues the request, awaits
`res.json()`, and only then checks `res.ok`; a non-ok response raises
`data.error || "Request failed: <url>"`. A transport failure or a JSON
parse failure propagates as the thrown error's message. -/
def postFormData (url : String) (resp : FetchResult) :
    Except String ResponseData :=
  match resp with
  | .transportError m => .error m
  | .response ok body =>
    match body with
    | .error m => .error m
    | .ok data =>
      if ok then .ok data
      else .error (jsOr data.error ("Request failed: " ++ url))

/-- The React component state of `App`, restricted to the fields the four
handlers read or write. Defaults are the `useState` initial values. -/
structure AppState where
  openaiKey : String := ""
  geminiKey : String := ""
  status : String := "Idle"
  error : String := ""
  submissionText : String := ""
  submissionFile : Option FileData := none
  submissionModel : String := "gpt-4o-mini"
  submissionResult : String := ""
  checklistText : String := ""
  checklistFile : Option FileData := none
  checklistModel : String := "gpt-4o-mini"
  checklistResult : String := ""
  reviewSubmission : String := ""
  reviewChecklist : String := ""
  reviewModel : String := "gpt-4o-mini"
  reviewResult : String := ""
deriving DecidableEq, Repr

/-- The JSON body of `/set_api_keys` (App.jsx lines 60–63):
`JSON.stringify({openai: openaiKey || undefined, gemini: geminiKey ||
undefined})` — `JSON.stringify` drops keys whose value is `undefined`, so a
falsy (empty) key is omitted from the body entirely. -/
def saveKeysBody (s : AppState) : List (String × String) :=
  ([("openai", if s.openaiKey = "" then none else some s.openaiKey),
    ("gemini", if s.geminiKey = "" then none else some s.geminiKey)]
      : List (String × Option String)).filterMap fun kv =>
    match kv with
    | (k, some v) => some (k, v)
    | (_, none) => none

/-- `handleSaveKeys` (App.jsx lines 53–74): sets status `"Saving keys"`,
clears the error, posts the JSON body to `/set_api_keys`; a non-ok response
throws `data.error || "Failed to save keys"`; on success the status becomes
`data.status || "saved"`. Returns the request body and the new state. -/
def handleSaveKeys (s : AppState) (resp : FetchResult) :
    List (String × String) × AppState :=
  let s1 : AppState := { s with status := "Saving keys", error := "" }
  let body := saveKeysBody s
  match resp with
  | .transportError m => (body, { s1 with error := m, status := "Error" })
  | .response ok parsed =>
    match parsed with
    | .error m => (body, { s1 with error := m, status := "Error" })
    | .ok data =>
      if ok then
        (body, { s1 with status := jsOr data.status "saved" })
      else
        (body, { s1 with error := jsOr data.error "Failed to save keys",
                         status := "Error" })

/-- The fields object passed to `buildFormData` by
`handleTransformSubmission`: `{pasted, model, file: submissionFile ||
undefined}` (App.jsx lines 101–105). -/
def submissionFields (s : AppState) : List (String × Option FormValue) :=
  [("pasted", some (.str s.submissionText)),
   ("model", some (.str s.submissionModel)),
   ("file", s.submissionFile.map FormValue.file)]

/-- The fields object passed to `buildFormData` by
`handleTransformChecklist` (App.jsx lines 119–123). -/
def checklistFields (s : AppState) : List (String × Option FormValue) :=
  [("pasted", some (.str s.checklistText)),
   ("model", some (.str s.checklistModel)),
   ("file", s.checklistFile.map FormValue.file)]

/-- The fields object passed to `buildFormData` by `handleRunReview`
(App.jsx lines 137–144): `submission = reviewSubmission || submissionResult`
and `checklist = reviewChecklist || checklistResult`. -/
def reviewFields (s : AppState) : List (String × Option FormValue) :=
  [("submission", some (.str (strOr s.reviewSubmission s.submissionResult))),
   ("checklist", some (.str (strOr s.reviewChecklist s.checklistResult))),
   ("model", some (.str s.reviewModel))]

/-- `handleTransformSubmission` (App.jsx lines 98–114): sets status
`"Transforming submission"`, clears the error, posts the form data to
`/transform_submission`; on success writes `submissionResult :=
data.result || ""` and status `"Idle"`; on failure writes the thrown
message and status `"Error"`. Returns the form data and the new state. -/
def handleTransformSubmission (s : AppState) (resp : FetchResult) :
    List (String × FormValue) × AppState :=
  let s1 : AppState := { s with status := "Transforming submission",
                                error := "" }
  let fd := buildFormData (submissionFields s)
  match postFormData "/transform_submission" resp with
  | .ok data =>
      (fd, { s1 with submissionResult := jsOr data.result "",
                     status := "Idle" })
  | .error m => (fd, { s1 with error := m, status := "Error" })

/-- `handleTransformChecklist` (App.jsx lines 116–132): analogous to the
submission transform, against `/transform_checklist` and
`checklistResult`. -/
def handleTransformChecklist (s : AppState) (resp : FetchResult) :
    List (String × FormValue) × AppState :=
  let s1 : AppState := { s with status := "Transforming checklist",
                                error := "" }
  let fd := buildFormData (checklistFields s)
  match postFormData "/transform_checklist" resp with
  | .ok data =>
      (fd, { s1 with checklistResult := jsOr data.result "",
                     status := "Idle" })
  | .error m => (fd, { s1 with error := m, status := "Error" })

/-- `handleRunReview` (App.jsx lines 134–152): resolves the effective
submission and checklist texts, posts to `/run_review`; on success writes
`reviewResult := data.result || ""` and status `"Idle"`. -/
def handleRunReview (s : AppState) (resp : FetchResult) :
    List (String × FormValue) × AppState :=
  let s1 : AppState := { s with status := "Running review", error := "" }
  let fd := buildFormData (reviewFields s)
  match postFormData "/run_review" resp with
  | .ok data =>
      (fd, { s1 with reviewResult := jsOr data.result "",
                     status := "Idle" })
  | .error m => (fd, { s1 with error := m, status := "Error" })

/-- Whether a fetch outcome counts as a success for the handlers: the
response arrived, `res.json()` parsed, and `res.ok` held. -/
def fetchSucceeds : FetchResult → Bool
  | .response true (.ok _) => true
  | _ => false

/-- An event in the interleaved execution of the three stage handlers:
firing a handler runs its synchronous prefix (set the Running status, clear
the error, issue the request); settling applies the continuation after the
awaited response, with the given fetch outcome. -/
inductive StageEvent where
  | fireSubmission
  | fireChecklist
  | fireReview
  | settleSubmission (resp : FetchResult)
  | settleChecklist (resp : FetchResult)
  | settleReview (resp : FetchResult)

/-- One step of the interleaved execution, on a state paired with the count
of network requests issued so far. No fire is guarded: each issues a
request unconditionally, mirroring the absence of an in-flight check. -/
def stageStep : AppState × Nat → StageEvent → AppState × Nat
  | (s, n), .fireSubmission =>
      ({ s with status := "Transforming submission", error := "" }, n + 1)
  | (s, n), .fireChecklist =>
      ({ s with status := "Transforming checklist", error := "" }, n + 1)
  | (s, n), .fireReview =>
      ({ s with status := "Running review", error := "" }, n + 1)
  | (s, n), .settleSubmission resp =>
      ((match postFormData "/transform_submission" resp with
        | .ok data => { s with submissionResult := jsOr data.result "",
                               status := "Idle" }
        | .error m => { s with error := m, status := "Error" }), n)
  | (s, n), .settleChecklist resp =>
      ((match postFormData "/transform_checklist" resp with
        | .ok data => { s with checklistResult := jsOr data.result "",
                               status := "Idle" }
        | .error m => { s with error := m, status := "Error" }), n)
  | (s, n), .settleReview resp =>
      ((match postFormData "/run_review" resp with
        | .ok data => { s with reviewResult := jsOr data.result "",
                               status := "Idle" }
        | .error m => { s with error := m, status := "Error" }), n)

/-- Run a list of interleaving events from a starting configuration. -/
def runEvents (start : AppState × Nat) (es : List StageEvent) :
    AppState × Nat :=
  es.foldl stageStep start

/-- Whether an event is the successful settling of some stage call. -/
def isSuccessSettle : StageEvent → Bool
  | .settleSubmission resp => fetchSucceeds resp
  | .settleChecklist resp => fetchSucceeds resp
  | .settleReview resp => fetchSucceeds resp
  | _ => false

/-- Whether a string contains another as a substring (on code points). -/
def mentions (msg needle : String) : Bool :=
  decide (needle.data <:+: msg.data)

/-- C1: every `runReview` request carries `submission` = the review stage's
own override text when non-empty, else the stored `submissionResult`, and
`checklist` = the non-empty `reviewChecklist` override, else the stored
`checklistResult`; `model` is the review model. -/
theorem runReview_fallback_law (s : AppState) (resp : FetchResult) :
    (handleRunReview s resp).1 =
      [("submission", FormValue.str (if s.reviewSubmission = ""
          then s.submissionResult else s.reviewSubmission)),
       ("checklist", FormValue.str (if s.reviewChecklist = ""
          then s.checklistResult else s.reviewChecklist)),
       ("model", FormValue.str s.reviewModel)] := by
  unfold handleRunReview
  cases postFormData "/run_review" resp <;>
    simp [buildFormData, reviewFields, strOr, List.filterMap]

/-- C2 counterexample: a checklist transform with a file attached and
non-empty pasted text still sends the `pasted` field — the pasted text is
not omitted from the request when a file is present. -/
theorem checklist_file_keeps_pasted_counterexample :
    ("pasted", FormValue.str "some notes") ∈
      (handleTransformChecklist
        { checklistText := "some notes",
          checklistFile := some ⟨"list.pdf", "bytes"⟩ }
        (.response true (.ok {}))).1 := by
  decide

/-- C2 amended: when a file is set, the transform request carries the file
field and ALSO the pasted-text field — the client always sends `pasted`
(and `model`), appending `file` exactly when a file is present; no
client-side precedence drops the pasted text. -/
theorem transform_sends_pasted_and_file (s : AppState) (resp : FetchResult) :
    (handleTransformSubmission s resp).1 =
      [("pasted", FormValue.str s.submissionText),
       ("model", FormValue.str s.submissionModel)] ++
        (s.submissionFile.elim [] fun f => [("file", FormValue.file f)]) ∧
    (handleTransformChecklist s resp).1 =
      [("pasted", FormValue.str s.checklistText),
       ("model", FormValue.str s.checklistModel)] ++
        (s.checklistFile.elim [] fun f => [("file", FormValue.file f)]) := by
  constructor
  · unfold handleTransformSubmission
    cases postFormData "/transform_submission" resp <;>
      rcases hf : s.submissionFile with _ | f <;>
        simp [buildFormData, submissionFields, List.filterMap, hf]
  · unfold handleTransformChecklist
    cases postFormData "/transform_checklist" resp <;>
      rcases hf : s.checklistFile with _ | f <;>
        simp [buildFormData, checklistFields, List.filterMap, hf]

/-- C3: a transform that succeeds with result string `r` stores `r`
verbatim in its result slot and sets the status to `"Idle"`. -/
theorem transform_success_stores_verbatim (s : AppState) (r : String)
    (e st : Option String) :
    ((handleTransformSubmission s
        (.response true (.ok ⟨some r, e, st⟩))).2.submissionResult = r ∧
     (handleTransformSubmission s
        (.response true (.ok ⟨some r, e, st⟩))).2.status = "Idle") ∧
    ((handleTransformChecklist s
        (.response true (.ok ⟨some r, e, st⟩))).2.checklistResult = r ∧
     (handleTransformChecklist s
        (.response true (.ok ⟨some r, e, st⟩))).2.status = "Idle") := by
  by_cases h : r = "" <;>
    simp [handleTransformSubmission, handleTransformChecklist,
      postFormData, jsOr, h]

/-- C4: a stage invocation that fails (non-2xx or transport error) leaves
its result slot unchanged, sets status `"Error"` and stores the failure
message; and the generic message for a 500 with body `{}` contains the
endpoint path. -/
theorem stage_failure_preserves_results (s : AppState) (resp : FetchResult)
    (m1 m2 m3 : String)
    (h1 : postFormData "/transform_submission" resp = .error m1)
    (h2 : postFormData "/transform_checklist" resp = .error m2)
    (h3 : postFormData "/run_review" resp = .error m3) :
    ((handleTransformSubmission s resp).2.submissionResult =
        s.submissionResult ∧
     (handleTransformSubmission s resp).2.status = "Error" ∧
     (handleTransformSubmission s resp).2.error = m1) ∧
    ((handleTransformChecklist s resp).2.checklistResult =
        s.checklistResult ∧
     (handleTransformChecklist s resp).2.status = "Error" ∧
     (handleTransformChecklist s resp).2.error = m2) ∧
    ((handleRunReview s resp).2.reviewResult = s.reviewResult ∧
     (handleRunReview s resp).2.status = "Error" ∧
     (handleRunReview s resp).2.error = m3) ∧
    ((handleTransformSubmission s (.response false (.ok {}))).2.error =
        "Request failed: /transform_submission" ∧
     mentions "Request failed: /transform_submission"
        "/transform_submission" = true) := by
  unfold handleTransformSubmission handleTransformChecklist handleRunReview
  rw [h1, h2, h3]
  exact ⟨⟨rfl, rfl, rfl⟩, ⟨rfl, rfl, rfl⟩, ⟨rfl, rfl, rfl⟩, rfl, by decide⟩

/-- C4 witness: a transport failure (`fetch` rejecting with "boom") is an
error with the same message on all three endpoints. -/
theorem stage_failure_preserves_results_witness :
    (handleTransformSubmission {} (.transportError "boom")).2.submissionResult
      = "" ∧
    (handleTransformSubmission {} (.transportError "boom")).2.status
      = "Error" := by
  have h := stage_failure_preserves_results {} (.transportError "boom")
    "boom" "boom" "boom" rfl rfl rfl
  exact ⟨h.1.1, h.1.2.1⟩

/-- C5 counterexample: a non-2xx `/set_api_keys` response with no `error`
field yields the fixed message `"Failed to save keys"`, which does not name
the endpoint. -/
theorem saveKeys_generic_message_counterexample :
    (handleSaveKeys {} (.response false (.ok {}))).2.error =
      "Failed to save keys" ∧
    mentions "Failed to save keys" "/set_api_keys" = false ∧
    mentions "Failed to save keys" "set_api_keys" = false := by
  refine ⟨rfl, ?_, ?_⟩ <;> decide

/-- C5 amended: on a non-success status the failure message equals the
service `error` field when present and non-empty; otherwise it is
`"Request failed: <url>"` (naming the endpoint) for the three multipart
endpoints, but the fixed `"Failed to save keys"` (not naming the endpoint)
for `/set_api_keys`. -/
theorem failure_message_law (url : String) (d : ResponseData)
    (s : AppState) :
    postFormData url (.response false (.ok d)) =
      .error (jsOr d.error ("Request failed: " ++ url)) ∧
    (handleSaveKeys s (.response false (.ok d))).2.error =
      jsOr d.error "Failed to save keys" ∧
    mentions ("Request failed: " ++ url) url = true := by
  refine ⟨rfl, rfl, ?_⟩
  simp only [mentions, decide_eq_true_eq, String.data_append]
  exact (List.suffix_append _ _).isInfix

/-- C6: `buildFormData` keeps exactly the fields whose value is neither
null nor undefined, and the `/set_api_keys` body with an unset gemini key
omits `gemini` entirely, carrying only the openai key when that is set. -/
theorem omit_nullish_fields (fields : List (String × Option FormValue))
    (k : String) (v : FormValue) (s : AppState) (resp : FetchResult)
    (hg : s.geminiKey = "") :
    ((k, v) ∈ buildFormData fields ↔ (k, some v) ∈ fields) ∧
    (handleSaveKeys s resp).1 =
      (if s.openaiKey = "" then [] else [("openai", s.openaiKey)]) := by
  constructor
  · simp only [buildFormData, List.mem_filterMap]
    constructor
    · rintro ⟨⟨k', ov⟩, hmem, heq⟩
      cases ov with
      | none => simp at heq
      | some v' =>
        simp only [Option.some.injEq, Prod.mk.injEq] at heq
        obtain ⟨hk, hv⟩ := heq
        rw [← hk, ← hv]
        exact hmem
    · intro h
      exact ⟨(k, some v), h, rfl⟩
  · have hbody : (handleSaveKeys s resp).1 = saveKeysBody s := by
      unfold handleSaveKeys
      rcases resp with ⟨ok, body⟩ | m
      · rcases body with m | d
        · rfl
        · by_cases h : ok = true <;> simp [h]
      · rfl
    rw [hbody]
    by_cases ho : s.openaiKey = "" <;> simp [saveKeysBody, hg, ho]

/-- C6 witness: with only the openai key set, the `/set_api_keys` body is
exactly `[("openai", "k1")]` — gemini is omitted entirely. -/
theorem omit_nullish_fields_witness :
    (("a", FormValue.str "x") ∈
        buildFormData [("a", some (FormValue.str "x")), ("b", none)] ↔
      ("a", some (FormValue.str "x")) ∈
        [("a", some (FormValue.str "x")), ("b", none)]) ∧
    (handleSaveKeys { openaiKey := "k1" } (.transportError "t")).1 =
      [("openai", "k1")] := by
  have h := omit_nullish_fields [("a", some (FormValue.str "x")), ("b", none)]
    "a" (FormValue.str "x") { openaiKey := "k1" } (.transportError "t") rfl
  refine ⟨h.1, ?_⟩
  rw [h.2]
  decide

/-- C7 counterexample: a successful `/set_api_keys` call whose response
carries `status: "ok"` sets the global status to `"ok"`, which is none of
Idle, the three Running-stage values, or Error. -/
theorem status_enum_counterexample :
    (handleSaveKeys {}
        (.response true (.ok { status := some "ok" }))).2.status = "ok" ∧
    "ok" ∉ (["Idle", "Transforming submission", "Transforming checklist",
      "Running review", "Error"] : List String) := by
  exact ⟨rfl, by decide⟩

/-- C7 amended: within the three stage handlers the status stays in
{Idle, Transforming submission, Transforming checklist, Running review,
Error} and becomes Idle exactly on a successful settle; but
`handleSaveKeys` escapes this enum: on success it sets the status to the
server-provided `status` string (default `"saved"`). -/
theorem status_values_law (p : AppState × Nat) (e : StageEvent)
    (s : AppState) (d : ResponseData) :
    (stageStep p e).1.status ∈ (["Idle", "Transforming submission",
      "Transforming checklist", "Running review", "Error"] : List String) ∧
    ((stageStep p e).1.status = "Idle" ↔ isSuccessSettle e = true) ∧
    (handleSaveKeys s (.response true (.ok d))).2.status =
      jsOr d.status "saved" := by
  obtain ⟨st, n⟩ := p
  refine ⟨?_, ?_, rfl⟩ <;>
    cases e <;>
      (try (rename_i resp; rcases resp with ⟨_ | _, _ | _⟩ | m)) <;>
        simp [stageStep, postFormData, isSuccessSettle, fetchSucceeds]

/-- C8: two submission transforms fired before either settles both issue a
request (no in-flight guard), and the shared result slot and status are
last-write-wins: when the second call's response arrives first and the
first call's arrives last, the final `submissionResult` is the last
arrival's value, not the earlier one's. -/
theorem concurrent_transforms_last_write_wins (s : AppState)
    (d1 d2 : ResponseData) :
    (runEvents (s, 0) [.fireSubmission, .fireSubmission,
        .settleSubmission (.response true (.ok d2)),
        .settleSubmission (.response true (.ok d1))]).2 = 2 ∧
    (runEvents (s, 0) [.fireSubmission, .fireSubmission,
        .settleSubmission (.response true (.ok d2)),
        .settleSubmission (.response true (.ok d1))]).1.submissionResult =
      jsOr d1.result "" ∧
    (runEvents (s, 0) [.fireSubmission, .fireSubmission,
        .settleSubmission (.response true (.ok d2)),
        .settleSubmission (.response true (.ok d1))]).1.status = "Idle" ∧
    (runEvents ({}, 0) [.fireSubmission, .fireSubmission,
        .settleSubmission (.response true (.ok { result := some "early" })),
        .settleSubmission
          (.response true (.ok { result := some "late" }))]).1.submissionResult
      = "late" := by
  exact ⟨rfl, rfl, rfl, by decide⟩

/-- C9: the body is parsed before the status flag is checked: a response
whose body fails to parse surfaces the parse error's message — on any of
the `postFormData` endpoints and on `/set_api_keys` — regardless of the
HTTP status, instead of a service or endpoint-qualified message. -/
theorem parse_error_precedes_status_check (url : String) (ok : Bool)
    (m : String) (s : AppState) :
    postFormData url (.response ok (.error m)) = .error m ∧
    (handleSaveKeys s (.response ok (.error m))).2.error = m ∧
    (handleSaveKeys s (.response ok (.error m))).2.status = "Error" ∧
    (handleTransformSubmission s (.response false (.error m))).2.error =
      m := by
  exact ⟨rfl, rfl, rfl, rfl⟩

/-- C10: a successful stage call whose JSON body lacks `result`, or whose
`result` is falsy (empty), stores the empty string in the result slot. -/
theorem success_missing_result_yields_empty (s : AppState)
    (e st : Option String) :
    (handleTransformSubmission s
      (.response true (.ok ⟨none, e, st⟩))).2.submissionResult = "" ∧
    (handleTransformSubmission s
      (.response true (.ok ⟨some "", e, st⟩))).2.submissionResult = "" ∧
    (handleTransformChecklist s
      (.response true (.ok ⟨none, e, st⟩))).2.checklistResult = "" ∧
    (handleTransformChecklist s
      (.response true (.ok ⟨some "", e, st⟩))).2.checklistResult = "" ∧
    (handleRunReview s
      (.response true (.ok ⟨none, e, st⟩))).2.reviewResult = "" ∧
    (handleRunReview s
      (.response true (.ok ⟨some "", e, st⟩))).2.reviewResult = "" := by
  exact ⟨rfl, rfl, rfl, rfl, rfl, rfl⟩

end App
